import Mathlib

/-!
Shallow embedding of the disaster-law dashboard's data pipeline
(`disaster_dashboard.py`) and proofs about it.

Modelling conventions:
* A spreadsheet cell is `Option String`: `none` stands for a missing/NaN
  cell, `some s` for a cell whose pandas string rendering is `s`.
* Python's `str(x)` on a NaN cell yields `"nan"` (used for the jurisdiction
  cell at line 128); the column loop at line 145 instead converts NaN to
  the empty string.  The two conversions are `pyStr` and `pyVal`.
* Python floats are modelled by `ℚ`; the only scores that arise are the
  exact values `k / 11`, and the thresholds `0.7` / `0.4`, none of which
  lose precision in either representation.
* `str.lower()` is modelled by ASCII lowering (the same as Lean's
  `Char.toLower`); all column headers involved are ASCII.
* `str.strip()` is modelled by trimming the ASCII whitespace characters
  (space, tab, newline, carriage return, vertical tab, form feed).
* The Python `defaultdict` keyed by jurisdiction name, which preserves
  insertion order, is modelled by an association list: lookup takes the
  first entry with the key, update replaces the first entry in place, and
  a new key is appended at the end.
-/

namespace DisasterDashboard

/-! ### String helpers (Python `in`, `startswith`, `lower`, `strip`) -/

/-- Substring test on character lists: some contiguous slice of `ss` equals `ps`. -/
def listHas (ss ps : List Char) : Bool :=
  (List.range (ss.length + 1)).any fun i => ((ss.drop i).take ps.length) == ps

/-- Python's `pat in s` (contiguous substring test). -/
def strHas (s pat : String) : Bool :=
  listHas s.data pat.data

/-- Python's `s.startswith(pat)`. -/
def strStarts (s pat : String) : Bool :=
  s.data.take pat.data.length == pat.data

/-- Python's `s.lower()`, restricted to ASCII (all headers involved are ASCII). -/
def lowerStr (s : String) : String :=
  ⟨s.data.map Char.toLower⟩

/-- ASCII whitespace, as stripped by Python's `str.strip()`. -/
def isWS (c : Char) : Bool :=
  c == ' ' || c == '\t' || c == '\n' || c == '\r' || c == Char.ofNat 11 || c == Char.ofNat 12

/-- Python's `s.strip()`. -/
def trimStr (s : String) : String :=
  ⟨((s.data.dropWhile isWS).reverse.dropWhile isWS).reverse⟩

/-- `str(cell)` for the jurisdiction cell (line 128): NaN renders as `"nan"`. -/
def pyStr : Option String → String
  | none => "nan"
  | some s => s

/-- `str(row[col]) if pd.notna(row[col]) else ''` (line 145). -/
def pyVal : Option String → String
  | none => ""
  | some s => s

/-! ### Data model: one record per jurisdiction -/

/-- The eleven topic fields of a jurisdiction record (`data_fields`, lines 182–187). -/
inductive TopicField where
  | key_statutes
  | local_authority
  | notable_provisions
  | vulnerable_protections
  | civil_rights
  | disability_needs
  | language_access
  | equity_initiatives
  | emergency_declaration
  | mitigation_planning
  | mutual_aid
  deriving DecidableEq, Repr

/-- A jurisdiction record (the per-state dict of lines 88–103). -/
structure StateEntry where
  state : String
  key_statutes : String
  local_authority : String
  notable_provisions : String
  vulnerable_protections : String
  civil_rights : String
  disability_needs : String
  language_access : String
  equity_initiatives : String
  emergency_declaration : String
  mitigation_planning : String
  mutual_aid : String
  data_availability : ℚ
  region : String
  deriving DecidableEq, Repr

/-- The `defaultdict` default value (lines 88–103). -/
def defaultEntry : StateEntry where
  state := ""
  key_statutes := ""
  local_authority := ""
  notable_provisions := ""
  vulnerable_protections := ""
  civil_rights := ""
  disability_needs := ""
  language_access := ""
  equity_initiatives := ""
  emergency_declaration := ""
  mitigation_planning := ""
  mutual_aid := ""
  data_availability := 0
  region := "Unknown"

def getField : TopicField → StateEntry → String
  | .key_statutes, e => e.key_statutes
  | .local_authority, e => e.local_authority
  | .notable_provisions, e => e.notable_provisions
  | .vulnerable_protections, e => e.vulnerable_protections
  | .civil_rights, e => e.civil_rights
  | .disability_needs, e => e.disability_needs
  | .language_access, e => e.language_access
  | .equity_initiatives, e => e.equity_initiatives
  | .emergency_declaration, e => e.emergency_declaration
  | .mitigation_planning, e => e.mitigation_planning
  | .mutual_aid, e => e.mutual_aid

def setField : TopicField → String → StateEntry → StateEntry
  | .key_statutes, v, e => { e with key_statutes := v }
  | .local_authority, v, e => { e with local_authority := v }
  | .notable_provisions, v, e => { e with notable_provisions := v }
  | .vulnerable_protections, v, e => { e with vulnerable_protections := v }
  | .civil_rights, v, e => { e with civil_rights := v }
  | .disability_needs, v, e => { e with disability_needs := v }
  | .language_access, v, e => { e with language_access := v }
  | .equity_initiatives, v, e => { e with equity_initiatives := v }
  | .emergency_declaration, v, e => { e with emergency_declaration := v }
  | .mitigation_planning, v, e => { e with mitigation_planning := v }
  | .mutual_aid, v, e => { e with mutual_aid := v }

/-- `data_fields` (lines 182–187), in source order. -/
def dataFields : List TopicField :=
  [.key_statutes, .local_authority, .notable_provisions, .vulnerable_protections,
   .civil_rights, .disability_needs, .language_access, .equity_initiatives,
   .emergency_declaration, .mitigation_planning, .mutual_aid]

/-- Python truthiness test `v and v.strip() and v != 'nan'` (line 189 / line 256). -/
def isFilled (v : String) : Bool :=
  v != "" && trimStr v != "" && v != "nan"

/-- `filled_fields` (line 189). -/
def filledCount (e : StateEntry) : Nat :=
  (dataFields.filter fun f => isFilled (getField f e)).length

/-! ### Column and region classification -/

/-- The `if/elif` column-classification chain of lines 147–179. -/
def classifyColumn (col : String) : Option TopicField :=
  let cl := lowerStr col
  if strHas cl "statute" || strHas cl "code" then some .key_statutes
  else if strHas cl "local authority" then some .local_authority
  else if strHas cl "notable provision" then some .notable_provisions
  else if strHas cl "vulnerable" && strHas cl "protection" then some .vulnerable_protections
  else if strHas cl "civil rights" || strHas cl "discrimination" then some .civil_rights
  else if strHas cl "disability" || strHas cl "functional" then some .disability_needs
  else if strHas cl "language access" then some .language_access
  else if strHas cl "equity" then some .equity_initiatives
  else if strHas cl "emergency declaration" then some .emergency_declaration
  else if strHas cl "mitigation" then some .mitigation_planning
  else if strHas cl "mutual aid" then some .mutual_aid
  else none

/-- The region-from-filename chain of lines 192–206; `none` means the
record's region is left unchanged. -/
def classifyRegion (file : String) : Option String :=
  if strStarts file "CA-WA-OR" then some "West Coast"
  else if strHas file "Southwest" || strStarts file "SW-" then some "Southwest"
  else if strHas file "Midwest" then some "Midwest"
  else if strHas file "Northeast" then some "Northeast"
  else if strHas file "Appalachia" then some "Appalachia"
  else if strHas file "MTN" then some "Mountain West"
  else if strHas file "AK-HI" then some "Alaska & Hawaii"
  else none

/-- `state_mapping` (lines 106–110). -/
def stateMapping (s : String) : String :=
  if s = "Iowa, etc." then "Iowa"
  else if s = "Others" then "Wisconsin"
  else if s = "Guam, USVI, American Samoa, Northern Mariana I..." then "Guam"
  else s

/-- The non-jurisdiction values skipped at line 135 (besides the empty string). -/
def skipNames : List String :=
  ["nan", "Approach", "Aspect", "Impact Area", "Protection Area", "Region"]

/-- Header test for the jurisdiction column (line 120). -/
def isStateCol (c : String) : Bool :=
  strHas (lowerStr c) "state" || strHas (lowerStr c) "territory" ||
    strHas (lowerStr c) "jurisdiction"

/-! ### The ingestion fold -/

/-- The dict `state_data`, as an insertion-ordered association list. -/
abbrev StateMap := List (String × StateEntry)

/-- Dict lookup with the `defaultdict` default. -/
def findEntry : StateMap → String → StateEntry
  | [], _ => defaultEntry
  | p :: m, k => if p.1 = k then p.2 else findEntry m k

/-- Dict update: replace in place when the key is present, append otherwise. -/
def setEntry : StateMap → String → StateEntry → StateMap
  | [], k, e => [(k, e)]
  | p :: m, k, e => if p.1 = k then (k, e) :: m else p :: setEntry m k e

/-- One iteration of the column loop (lines 143–179) on a `(header, cell)`
pair; `pyVal cell` is the loop's local `value`. -/
def applyCell (e : StateEntry) (col : String) (cell : Option String) : StateEntry :=
  match classifyColumn col with
  | some f => if pyVal cell ≠ "" ∧ pyVal cell ≠ "nan" then setField f (pyVal cell) e else e
  | none => e

/-- The whole column loop over a row. -/
def updateFields (e : StateEntry) (cols : List String) (cells : List (Option String)) :
    StateEntry :=
  (cols.zip cells).foldl (fun e p => applyCell e p.1 p.2) e

/-- The accepted jurisdiction name of a row (lines 128–136): trim, remap,
then discard empty/`"nan"`/header-leakage values. `i` is the index of the
jurisdiction column. -/
def rowName (i : Nat) (cells : List (Option String)) : Option String :=
  let n := stateMapping (trimStr (pyStr (cells.getD i none)))
  if n = "" ∨ n ∈ skipNames then none else some n

/-- The merge of one accepted row into an existing record `e0` (lines
138–206): set `state`, run the column loop, recompute `data_availability`,
then assign the region when the filename classifies to one. -/
def mergedEntry (fname : String) (cols : List String) (cells : List (Option String))
    (e0 : StateEntry) (name : String) : StateEntry :=
  let e2 := updateFields { e0 with state := name } cols cells
  let e3 := { e2 with
    data_availability := (filledCount e2 : ℚ) / (dataFields.length : ℚ) }
  match classifyRegion fname with
  | some r => { e3 with region := r }
  | none => e3

/-- The body of the row loop (lines 127–206): skip or merge one row into the dict. -/
def procRow (fname : String) (cols : List String) (i : Nat)
    (cells : List (Option String)) (m : StateMap) : StateMap :=
  match rowName i cells with
  | none => m
  | some name => setEntry m name (mergedEntry fname cols cells (findEntry m name) name)

/-- One input spreadsheet: its filename, header row and data rows. -/
structure ExcelFile where
  fname : String
  cols : List String
  rows : List (List (Option String))

/-- Process one file (lines 113–206): find the jurisdiction column, else skip. -/
def procFile (m : StateMap) (f : ExcelFile) : StateMap :=
  match f.cols.findIdx? isStateCol with
  | none => m
  | some i => f.rows.foldl (fun m row => procRow f.fname f.cols i row m) m

/-- The dict built from all files. -/
def ingestMap (files : List ExcelFile) : StateMap :=
  files.foldl procFile []

/-- `load_and_process_data`'s normalized table (line 213), in insertion order. -/
def ingest (files : List ExcelFile) : List StateEntry :=
  (ingestMap files).map Prod.snd

/-! ### Presentation-layer helpers -/

/-- `get_data_availability_level` (lines 234–241). -/
def get_data_availability_level (score : ℚ) : String :=
  if score ≥ 7/10 then "Rich Data"
  else if score ≥ 4/10 then "Moderate Data"
  else "Limited Data"

/-- `field_mapping` (lines 245–252). -/
def fieldMapping (dt : String) : Option TopicField :=
  if dt = "vulnerable_protections" then some .vulnerable_protections
  else if dt = "equity_initiatives" then some .equity_initiatives
  else if dt = "civil_rights" then some .civil_rights
  else if dt = "language_access" then some .language_access
  else if dt = "disability_provisions" then some .disability_needs
  else if dt = "emergency_powers" then some .emergency_declaration
  else none

/-- `has_specific_data_type` (lines 243–257). -/
def has_specific_data_type (e : StateEntry) (dt : String) : Bool :=
  match fieldMapping dt with
  | some f => isFilled (getField f e)
  | none => false

/-- The data-type filter dispatch (lines 279–291). -/
def applyDataTypeFilter (dt : String) (t : List StateEntry) : List StateEntry :=
  if dt = "All" then t
  else if dt = "Vulnerable Protections" then
    t.filter fun e => has_specific_data_type e "vulnerable_protections"
  else if dt = "Equity Initiatives" then
    t.filter fun e => has_specific_data_type e "equity_initiatives"
  else if dt = "Civil Rights" then
    t.filter fun e => has_specific_data_type e "civil_rights"
  else if dt = "Language Access" then
    t.filter fun e => has_specific_data_type e "language_access"
  else if dt = "Disability Provisions" then
    t.filter fun e => has_specific_data_type e "disability_provisions"
  else if dt = "Emergency Powers" then
    t.filter fun e => has_specific_data_type e "emergency_powers"
  else t

/-- The region filter (lines 293–294). -/
def applyRegionFilter (r : String) (t : List StateEntry) : List StateEntry :=
  if r = "All" then t else t.filter fun e => e.region == r

/-- The module-level filter block (lines 277–294): data-type filter, then region. -/
def apply_filters (dt r : String) (t : List StateEntry) : List StateEntry :=
  applyRegionFilter r (applyDataTypeFilter dt t)

/-- The territory deny-list of line 416. -/
def territoryNames : List String :=
  ["District of Columbia", "Puerto Rico", "Guam", "U.S. Virgin Islands",
   "American Samoa", "Northern Mariana Islands"]

/-- `us_states_only` (line 416). -/
def usStatesOnly (t : List StateEntry) : List StateEntry :=
  t.filter fun e => !(territoryNames.contains e.state)

/-- `total_states` (line 417). -/
def totalStates (t : List StateEntry) : Nat :=
  (usStatesOnly t).length

/-! ### Spec-side definitions, used to state the claims -/

/-- The column classification rule table of spec §6, in its fixed priority
order: a predicate on the lowered header together with the target field. -/
def columnRules : List ((String → Bool) × TopicField) :=
  [(fun c => strHas c "statute" || strHas c "code", .key_statutes),
   (fun c => strHas c "local authority", .local_authority),
   (fun c => strHas c "notable provision", .notable_provisions),
   (fun c => strHas c "vulnerable" && strHas c "protection", .vulnerable_protections),
   (fun c => strHas c "civil rights" || strHas c "discrimination", .civil_rights),
   (fun c => strHas c "disability" || strHas c "functional", .disability_needs),
   (fun c => strHas c "language access", .language_access),
   (fun c => strHas c "equity", .equity_initiatives),
   (fun c => strHas c "emergency declaration", .emergency_declaration),
   (fun c => strHas c "mitigation", .mitigation_planning),
   (fun c => strHas c "mutual aid", .mutual_aid)]

/-- First-match evaluation of an ordered rule table (spec §6: "checked in
this priority order, only the first matching rule applies"). -/
def firstMatch : List ((String → Bool) × TopicField) → String → Option TopicField
  | [], _ => none
  | r :: rs, c => if r.1 c then some r.2 else firstMatch rs c

/-- Column classification as the spec words it: first matching rule of the
§6 table, on the lowered header. -/
def classifySpec (col : String) : Option TopicField :=
  firstMatch columnRules (lowerStr col)

/-- The number of literally non-empty topic fields (the count the spec's
`coverage_score` sentence describes). -/
def nonEmptyCount (e : StateEntry) : Nat :=
  (dataFields.filter fun f => getField f e != "").length

/-- The fifty US state names (the allow-list the spec's "US States" count
sentence describes; the fifty-state subset of the name→code table at
lines 216–228). -/
def fiftyStateNames : List String :=
  ["Alabama", "Alaska", "Arizona", "Arkansas", "California",
   "Colorado", "Connecticut", "Delaware", "Florida", "Georgia",
   "Hawaii", "Idaho", "Illinois", "Indiana", "Iowa",
   "Kansas", "Kentucky", "Louisiana", "Maine", "Maryland",
   "Massachusetts", "Michigan", "Minnesota", "Mississippi", "Missouri",
   "Montana", "Nebraska", "Nevada", "New Hampshire", "New Jersey",
   "New Mexico", "New York", "North Carolina", "North Dakota", "Ohio",
   "Oklahoma", "Oregon", "Pennsylvania", "Rhode Island", "South Carolina",
   "South Dakota", "Tennessee", "Texas", "Utah", "Vermont",
   "Virginia", "Washington", "West Virginia", "Wisconsin", "Wyoming"]

/-- A record's stored score is the one the code computes from its current
topic fields: `filled_fields / len(data_fields)` with the line-189 test. -/
def scoreOK (e : StateEntry) : Prop :=
  e.data_availability = (filledCount e : ℚ) / (dataFields.length : ℚ)

/-! ### Concrete input data used by counterexamples and witnesses -/

/-- A file whose only topic cell is the one-space string `" "`. -/
def c2File : ExcelFile :=
  ⟨"plain.xlsx", ["State", "Key Statutes"], [[some "Ohio", some " "]]⟩

/-- The single record `ingest` builds from `c2File`. -/
def c2Entry : StateEntry := (ingest [c2File]).headD defaultEntry

/-- File A of the claim-C3 scenario: sets `vulnerable_protections` to `"X"`. -/
def c3FileA : ExcelFile :=
  ⟨"a.xlsx", ["State", "Vulnerable Populations Protections"], [[some "Ohio", some "X"]]⟩

/-- File B of the claim-C3 scenario: an empty cell for the same topic. -/
def c3FileB : ExcelFile :=
  ⟨"b.xlsx", ["State", "Vulnerable Populations Protections"], [[some "Ohio", none]]⟩

/-- A file classified Midwest by its name. -/
def c4FileA : ExcelFile :=
  ⟨"Midwest-states.xlsx", ["State", "Mitigation Planning"], [[some "Ohio", some "Plan A"]]⟩

/-- A later file classified Northeast by its name, same jurisdiction. -/
def c4FileB : ExcelFile :=
  ⟨"Northeast-states.xlsx", ["Jurisdiction", "Equity Programs"], [[some "Ohio", some "Program B"]]⟩

/-- A record whose `civil_rights` field is the one-space string `" "`. -/
def c7Entry : StateEntry :=
  { defaultEntry with state := "A", civil_rights := " ", region := "Midwest" }

/-- A record whose name is neither a US state nor a listed territory. -/
def c9Entry : StateEntry := { defaultEntry with state := "Atlantis" }

/-- A file whose only topic cell is the literal string `"nan"`. -/
def c10File : ExcelFile :=
  ⟨"x.xlsx", ["State", "Key Statutes"], [[some "Ohio", some "nan"]]⟩

/-- The single record `ingest` builds from `c10File`. -/
def c10Entry : StateEntry := (ingest [c10File]).headD defaultEntry

/-! ### Helper lemmas -/

theorem getField_setField_ne (f g : TopicField) (v : String) (e : StateEntry) (h : g ≠ f) :
    getField g (setField f v e) = getField g e := by
  cases f <;> cases g <;> first | exact absurd rfl h | rfl

theorem getField_stateSet (f : TopicField) (e : StateEntry) (n : String) :
    getField f { e with state := n } = getField f e := by
  cases f <;> rfl

theorem getField_scoreSet (f : TopicField) (e : StateEntry) (q : ℚ) :
    getField f { e with data_availability := q } = getField f e := by
  cases f <;> rfl

theorem getField_regionSet (f : TopicField) (e : StateEntry) (r : String) :
    getField f { e with region := r } = getField f e := by
  cases f <;> rfl

theorem region_setField (f : TopicField) (v : String) (e : StateEntry) :
    (setField f v e).region = e.region := by
  cases f <;> rfl

theorem filledCount_congr (e e' : StateEntry) (h : ∀ f, getField f e = getField f e') :
    filledCount e = filledCount e' := by
  unfold filledCount
  rw [List.filter_congr fun f _ => by rw [h f]]

theorem findEntry_setEntry (m : StateMap) (k j : String) (e : StateEntry) :
    findEntry (setEntry m k e) j = if j = k then e else findEntry m j := by
  induction m with
  | nil =>
    show (if k = j then e else defaultEntry) = if j = k then e else defaultEntry
    by_cases h : j = k
    · rw [if_pos h.symm, if_pos h]
    · rw [if_neg fun hh => h hh.symm, if_neg h]
  | cons p m ih =>
    show findEntry (if p.1 = k then (k, e) :: m else p :: setEntry m k e) j = _
    by_cases hp : p.1 = k
    · rw [if_pos hp]
      show (if k = j then e else findEntry m j) = _
      by_cases h : j = k
      · rw [if_pos h.symm, if_pos h]
      · rw [if_neg fun hh => h hh.symm, if_neg h]
        show findEntry m j = if p.1 = j then p.2 else findEntry m j
        rw [if_neg fun hh => h (hh.symm.trans hp)]
    · rw [if_neg hp]
      show (if p.1 = j then p.2 else findEntry (setEntry m k e) j) = _
      by_cases hj : p.1 = j
      · have hjk : ¬ j = k := fun hh => hp (hj.trans hh)
        rw [if_pos hj, if_neg hjk]
        show _ = if p.1 = j then p.2 else findEntry m j
        rw [if_pos hj]
      · rw [if_neg hj, ih]
        by_cases h : j = k
        · rw [if_pos h, if_pos h]
        · rw [if_neg h, if_neg h]
          show _ = if p.1 = j then p.2 else findEntry m j
          rw [if_neg hj]

theorem keys_setEntry (m : StateMap) (k : String) (e : StateEntry) :
    (setEntry m k e).map Prod.fst =
      if k ∈ m.map Prod.fst then m.map Prod.fst else m.map Prod.fst ++ [k] := by
  induction m with
  | nil => simp [setEntry]
  | cons p m ih =>
    by_cases hp : p.1 = k
    · simp [setEntry, hp]
    · simp only [setEntry, hp, if_false, List.map_cons, List.mem_cons]
      have : ¬ k = p.1 := fun hh => hp hh.symm
      by_cases hk : k ∈ m.map Prod.fst <;> simp [hk, this, ih]

theorem mem_setEntry {m : StateMap} {k : String} {e : StateEntry} {p : String × StateEntry}
    (hp : p ∈ setEntry m k e) : p ∈ m ∨ p = (k, e) := by
  induction m with
  | nil => simpa [setEntry] using hp
  | cons q m ih =>
    by_cases hq : q.1 = k
    · simp only [setEntry, hq, if_true] at hp
      rcases List.mem_cons.mp hp with h | h
      · exact Or.inr h
      · exact Or.inl (List.mem_cons_of_mem q h)
    · simp only [setEntry, hq, if_false] at hp
      rcases List.mem_cons.mp hp with h | h
      · exact Or.inl (h ▸ List.mem_cons_self q m)
      · rcases ih h with h' | h'
        · exact Or.inl (List.mem_cons_of_mem q h')
        · exact Or.inr h'

theorem foldl_induct {α β : Type} (Q : β → Prop) (step : β → α → β)
    (h : ∀ b a, Q b → Q (step b a)) :
    ∀ (l : List α) (b : β), Q b → Q (l.foldl step b) := by
  intro l
  induction l with
  | nil => intro b hb; exact hb
  | cons a l ih => intro b hb; exact ih (step b a) (h b a hb)

theorem getField_setField_eq (f : TopicField) (v : String) (e : StateEntry) :
    getField f (setField f v e) = v := by
  cases f <;> rfl

theorem region_applyCell (e : StateEntry) (col : String) (cell : Option String) :
    (applyCell e col cell).region = e.region := by
  unfold applyCell
  cases hc : classifyColumn col with
  | none => rfl
  | some f =>
    dsimp only
    by_cases hv : pyVal cell ≠ "" ∧ pyVal cell ≠ "nan"
    · rw [if_pos hv, region_setField]
    · rw [if_neg hv]

theorem region_updateFold (l : List (String × Option String)) (e : StateEntry) :
    (l.foldl (fun e p => applyCell e p.1 p.2) e).region = e.region := by
  induction l generalizing e with
  | nil => rfl
  | cons p l ih => rw [List.foldl_cons, ih, region_applyCell]

theorem region_updateFields (e : StateEntry) (cols : List String)
    (cells : List (Option String)) : (updateFields e cols cells).region = e.region :=
  region_updateFold _ _

theorem getField_applyCell_of_empty (f : TopicField) (e : StateEntry) (col : String)
    (cell : Option String)
    (h : classifyColumn col = some f → pyVal cell = "" ∨ pyVal cell = "nan") :
    getField f (applyCell e col cell) = getField f e := by
  unfold applyCell
  cases hc : classifyColumn col with
  | none => rfl
  | some g =>
    dsimp only
    by_cases hg : g = f
    · subst hg
      rcases h hc with h1 | h1
      · have hng : ¬(pyVal cell ≠ "" ∧ pyVal cell ≠ "nan") := fun hand => hand.1 h1
        rw [if_neg hng]
      · have hng : ¬(pyVal cell ≠ "" ∧ pyVal cell ≠ "nan") := fun hand => hand.2 h1
        rw [if_neg hng]
    · by_cases hv : pyVal cell ≠ "" ∧ pyVal cell ≠ "nan"
      · rw [if_pos hv, getField_setField_ne g f _ e fun hh => hg hh.symm]
      · rw [if_neg hv]

theorem getField_updateFold_of_empty (f : TopicField) (l : List (String × Option String))
    (e : StateEntry)
    (h : ∀ p ∈ l, classifyColumn p.1 = some f → pyVal p.2 = "" ∨ pyVal p.2 = "nan") :
    getField f (l.foldl (fun e p => applyCell e p.1 p.2) e) = getField f e := by
  induction l generalizing e with
  | nil => rfl
  | cons p l ih =>
    rw [List.foldl_cons, ih _ fun q hq => h q (List.mem_cons_of_mem p hq),
      getField_applyCell_of_empty f e p.1 p.2 (h p (List.mem_cons_self p l))]

theorem noNan_applyCell (e : StateEntry) (col : String) (cell : Option String)
    (h : ∀ f, getField f e ≠ "nan") :
    ∀ f, getField f (applyCell e col cell) ≠ "nan" := by
  intro f
  unfold applyCell
  cases hc : classifyColumn col with
  | none => exact h f
  | some g =>
    dsimp only
    by_cases hv : pyVal cell ≠ "" ∧ pyVal cell ≠ "nan"
    · rw [if_pos hv]
      by_cases hg : g = f
      · subst hg; rw [getField_setField_eq]; exact hv.2
      · rw [getField_setField_ne g f _ e fun hh => hg hh.symm]; exact h f
    · rw [if_neg hv]; exact h f

theorem noNan_updateFold (l : List (String × Option String)) (e : StateEntry)
    (h : ∀ f, getField f e ≠ "nan") :
    ∀ f, getField f (l.foldl (fun e p => applyCell e p.1 p.2) e) ≠ "nan" := by
  induction l generalizing e with
  | nil => exact h
  | cons p l ih =>
    rw [List.foldl_cons]
    exact ih _ (noNan_applyCell e p.1 p.2 h)

theorem filledCount_scoreSet (e : StateEntry) (q : ℚ) :
    filledCount { e with data_availability := q } = filledCount e :=
  filledCount_congr _ _ fun f => getField_scoreSet f e q

theorem filledCount_regionSet (e : StateEntry) (r : String) :
    filledCount { e with region := r } = filledCount e :=
  filledCount_congr _ _ fun f => getField_regionSet f e r

theorem entryInv_findEntry (P : StateEntry → Prop) (m : StateMap) (k : String)
    (hm : ∀ p ∈ m, P p.2) (hd : P defaultEntry) : P (findEntry m k) := by
  induction m with
  | nil => exact hd
  | cons p m ih =>
    show P (if p.1 = k then p.2 else findEntry m k)
    by_cases hp : p.1 = k
    · rw [if_pos hp]; exact hm p (List.mem_cons_self p m)
    · rw [if_neg hp]; exact ih fun q hq => hm q (List.mem_cons_of_mem p hq)

theorem entryInv_setEntry {P : StateEntry → Prop} {m : StateMap} {k : String}
    {e : StateEntry} (hP : P e) (hm : ∀ p ∈ m, P p.2) :
    ∀ p ∈ setEntry m k e, P p.2 := by
  intro p hp
  rcases mem_setEntry hp with h | h
  · exact hm p h
  · rw [h]; exact hP

theorem mergedEntry_topic (fname : String) (cols : List String)
    (cells : List (Option String)) (e0 : StateEntry) (name : String) (f : TopicField) :
    getField f (mergedEntry fname cols cells e0 name) =
      getField f (updateFields { e0 with state := name } cols cells) := by
  unfold mergedEntry
  cases classifyRegion fname <;> cases f <;> rfl

theorem mergedEntry_da (fname : String) (cols : List String)
    (cells : List (Option String)) (e0 : StateEntry) (name : String) :
    (mergedEntry fname cols cells e0 name).data_availability =
      (filledCount (updateFields { e0 with state := name } cols cells) : ℚ) /
        (dataFields.length : ℚ) := by
  unfold mergedEntry
  cases classifyRegion fname <;> rfl

theorem mergedEntry_scoreOK (fname : String) (cols : List String)
    (cells : List (Option String)) (e0 : StateEntry) (name : String) :
    scoreOK (mergedEntry fname cols cells e0 name) := by
  unfold scoreOK
  rw [mergedEntry_da,
    filledCount_congr _ _ fun f => mergedEntry_topic fname cols cells e0 name f]

theorem mergedEntry_region_none (fname : String) (cols : List String)
    (cells : List (Option String)) (e0 : StateEntry) (name : String)
    (h : classifyRegion fname = none) :
    (mergedEntry fname cols cells e0 name).region = e0.region := by
  unfold mergedEntry
  rw [h]
  show (updateFields { e0 with state := name } cols cells).region = e0.region
  rw [region_updateFields]

theorem mergedEntry_region_some (fname : String) (cols : List String)
    (cells : List (Option String)) (e0 : StateEntry) (name : String) (r : String)
    (h : classifyRegion fname = some r) :
    (mergedEntry fname cols cells e0 name).region = r := by
  unfold mergedEntry
  rw [h]

theorem keysNodup_procRow (fname : String) (cols : List String) (i : Nat)
    (cells : List (Option String)) (m : StateMap) (h : (m.map Prod.fst).Nodup) :
    ((procRow fname cols i cells m).map Prod.fst).Nodup := by
  unfold procRow
  cases rowName i cells with
  | none => exact h
  | some name =>
    rw [keys_setEntry]
    by_cases hk : name ∈ m.map Prod.fst
    · rw [if_pos hk]; exact h
    · rw [if_neg hk]
      refine List.nodup_append.mpr ⟨h, List.nodup_singleton _, ?_⟩
      intro a ha hb
      exact hk ((List.mem_singleton.mp hb) ▸ ha)

theorem scoreOK_procRow (fname : String) (cols : List String) (i : Nat)
    (cells : List (Option String)) (m : StateMap) (hm : ∀ p ∈ m, scoreOK p.2) :
    ∀ p ∈ procRow fname cols i cells m, scoreOK p.2 := by
  unfold procRow
  cases rowName i cells with
  | none => exact hm
  | some name => exact entryInv_setEntry (mergedEntry_scoreOK fname cols cells _ name) hm

theorem scoreOK_ingestMap (files : List ExcelFile) :
    ∀ p ∈ ingestMap files, scoreOK p.2 := by
  unfold ingestMap
  refine foldl_induct (fun m : StateMap => ∀ p ∈ m, scoreOK p.2) procFile ?_ files []
    (by intro p hp; cases hp)
  intro m f hm
  unfold procFile
  cases f.cols.findIdx? isStateCol with
  | none => exact hm
  | some i =>
    exact foldl_induct (fun m : StateMap => ∀ p ∈ m, scoreOK p.2) _
      (fun m row hm => scoreOK_procRow f.fname f.cols i row m hm) f.rows m hm

theorem noNan_defaultEntry : ∀ f, getField f defaultEntry ≠ "nan" := by
  intro f; cases f <;> decide

theorem noNan_procRow (fname : String) (cols : List String) (i : Nat)
    (cells : List (Option String)) (m : StateMap)
    (hm : ∀ p ∈ m, ∀ f, getField f p.2 ≠ "nan") :
    ∀ p ∈ procRow fname cols i cells m, ∀ f, getField f p.2 ≠ "nan" := by
  unfold procRow
  cases rowName i cells with
  | none => exact hm
  | some name =>
    refine entryInv_setEntry (P := fun e => ∀ f, getField f e ≠ "nan") ?_ hm
    have h0 : ∀ f, getField f (findEntry m name) ≠ "nan" :=
      entryInv_findEntry (fun e => ∀ f, getField f e ≠ "nan") m name hm noNan_defaultEntry
    have h1 : ∀ f, getField f { findEntry m name with state := name } ≠ "nan" := by
      intro f; rw [getField_stateSet]; exact h0 f
    intro f
    rw [mergedEntry_topic]
    exact noNan_updateFold _ _ h1 f

theorem noNan_ingestMap (files : List ExcelFile) :
    ∀ p ∈ ingestMap files, ∀ f, getField f p.2 ≠ "nan" := by
  unfold ingestMap
  refine foldl_induct (fun m : StateMap => ∀ p ∈ m, ∀ f, getField f p.2 ≠ "nan") procFile ?_
    files [] (by intro p hp; cases hp)
  intro m f hm
  unfold procFile
  cases f.cols.findIdx? isStateCol with
  | none => exact hm
  | some i =>
    exact foldl_induct (fun m : StateMap => ∀ p ∈ m, ∀ f, getField f p.2 ≠ "nan") _
      (fun m row hm => noNan_procRow f.fname f.cols i row m hm) f.rows m hm

theorem region_procRow_of_none (fname : String) (cols : List String) (i : Nat)
    (cells : List (Option String)) (m : StateMap) (name : String)
    (h : classifyRegion fname = none) :
    (findEntry (procRow fname cols i cells m) name).region = (findEntry m name).region := by
  unfold procRow
  cases rowName i cells with
  | none => rfl
  | some n =>
    rw [findEntry_setEntry]
    by_cases hn : name = n
    · rw [if_pos hn, mergedEntry_region_none fname cols cells _ n h, hn]
    · rw [if_neg hn]

theorem region_procRow_of_some (fname : String) (cols : List String) (i : Nat)
    (cells : List (Option String)) (m : StateMap) (name : String) (r : String)
    (hreg : classifyRegion fname = some r) (hrow : rowName i cells = some name) :
    (findEntry (procRow fname cols i cells m) name).region = r := by
  unfold procRow
  rw [hrow]
  rw [findEntry_setEntry, if_pos rfl]
  exact mergedEntry_region_some fname cols cells _ name r hreg

theorem isFilled_eq (v : String) : isFilled v = (trimStr v != "" && v != "nan") := by
  by_cases h : v = ""
  · subst h; rfl
  · unfold isFilled
    rw [show (v != "") = true by simpa using h, Bool.true_and]

/-! ### The claims -/

/-- C1: for every input file set the normalized table has at most one record
per distinct canonical jurisdiction name — the dict's key list is
duplicate-free — and processing a row whose canonical name is already a key
leaves the key list unchanged (the existing record is updated in place, no
duplicate is created). -/
theorem C1_unique_records :
    (∀ files : List ExcelFile, ((ingestMap files).map Prod.fst).Nodup) ∧
    (∀ fname cols i cells (m : StateMap) name, rowName i cells = some name →
      name ∈ m.map Prod.fst →
      (procRow fname cols i cells m).map Prod.fst = m.map Prod.fst) := by
  constructor
  · intro files
    unfold ingestMap
    refine foldl_induct (fun m : StateMap => (m.map Prod.fst).Nodup) procFile ?_ files []
      (by simp)
    intro m f hm
    unfold procFile
    cases f.cols.findIdx? isStateCol with
    | none => exact hm
    | some i =>
      exact foldl_induct (fun m : StateMap => (m.map Prod.fst).Nodup) _
        (fun m row hm => keysNodup_procRow f.fname f.cols i row m hm) f.rows m hm
  · intro fname cols i cells m name hrow hk
    unfold procRow
    rw [hrow, keys_setEntry, if_pos hk]

/-- Witness for C1: a row naming the already-present jurisdiction Ohio
leaves the key list of the dict unchanged. -/
theorem C1_unique_records_witness :
    (procRow "f.xlsx" ["State"] 0 [some "Ohio"] [("Ohio", defaultEntry)]).map Prod.fst =
      [("Ohio", defaultEntry)].map Prod.fst :=
  C1_unique_records.2 "f.xlsx" ["State"] 0 [some "Ohio"] [("Ohio", defaultEntry)] "Ohio"
    (by decide) (by decide)

/-- C3: a topic field is never overwritten by a row all of whose cells for
that topic are empty or missing/`"nan"`: processing such a row leaves the
field of every record unchanged; concretely, ingesting file A (which sets
`vulnerable_protections` to `"X"` for Ohio) and then file B (which supplies
a missing cell for that topic for Ohio) leaves the value `"X"`. -/
theorem C3_empty_never_overwrites :
    (∀ fname cols i cells (m : StateMap) (f : TopicField) name,
      (∀ p ∈ cols.zip cells, classifyColumn p.1 = some f →
        pyVal p.2 = "" ∨ pyVal p.2 = "nan") →
      getField f (findEntry (procRow fname cols i cells m) name) =
        getField f (findEntry m name)) ∧
    (findEntry (ingestMap [c3FileA, c3FileB]) "Ohio").vulnerable_protections = "X" := by
  constructor
  · intro fname cols i cells m f name hall
    unfold procRow
    cases rowName i cells with
    | none => rfl
    | some n =>
      rw [findEntry_setEntry]
      by_cases hn : name = n
      · subst hn
        rw [if_pos rfl, mergedEntry_topic]
        unfold updateFields
        rw [getField_updateFold_of_empty f (cols.zip cells) _ hall, getField_stateSet]
      · rw [if_neg hn]
  · decide

/-- Witness for C3: applying file B's row to the table built from file A
leaves Ohio's `vulnerable_protections` value unchanged. -/
theorem C3_empty_never_overwrites_witness :
    getField .vulnerable_protections
        (findEntry (procRow "b.xlsx" c3FileB.cols 0 [some "Ohio", none]
          (procFile [] c3FileA)) "Ohio") =
      getField .vulnerable_protections (findEntry (procFile [] c3FileA) "Ohio") :=
  C3_empty_never_overwrites.1 "b.xlsx" c3FileB.cols 0 [some "Ohio", none]
    (procFile [] c3FileA) .vulnerable_protections "Ohio" (by decide)

/-- C4: a record's region starts as `"Unknown"`; a file whose name
classifies to no region never changes any record's region; an accepted row
from a file classified to region `r` sets its record's region to `r`
(so the last-processed classifying file wins); and ingesting a Midwest file
then a Northeast file for the same jurisdiction yields `"Northeast"`. -/
theorem C4_region_last_wins :
    defaultEntry.region = "Unknown" ∧
    (∀ fname cols i cells (m : StateMap) name, classifyRegion fname = none →
      (findEntry (procRow fname cols i cells m) name).region =
        (findEntry m name).region) ∧
    (∀ fname cols i cells (m : StateMap) name r, classifyRegion fname = some r →
      rowName i cells = some name →
      (findEntry (procRow fname cols i cells m) name).region = r) ∧
    classifyRegion "Midwest-states.xlsx" = some "Midwest" ∧
    classifyRegion "Northeast-states.xlsx" = some "Northeast" ∧
    (findEntry (ingestMap [c4FileA, c4FileB]) "Ohio").region = "Northeast" := by
  refine ⟨rfl, ?_, ?_, by decide, by decide, by decide⟩
  · intro fname cols i cells m name h
    exact region_procRow_of_none fname cols i cells m name h
  · intro fname cols i cells m name r hreg hrow
    exact region_procRow_of_some fname cols i cells m name r hreg hrow

/-- Witness for C4: a Northeast-classified file's row overwrites an existing
Midwest region. -/
theorem C4_region_last_wins_witness :
    (findEntry (procRow "Northeast-states.xlsx" ["State"] 0 [some "Ohio"]
        [("Ohio", { defaultEntry with region := "Midwest" })]) "Ohio").region = "Northeast" :=
  C4_region_last_wins.2.2.1 "Northeast-states.xlsx" ["State"] 0 [some "Ohio"]
    [("Ohio", { defaultEntry with region := "Midwest" })] "Ohio" "Northeast"
    (by decide) (by decide)

/-- C5: a row whose trimmed, name-mapped jurisdiction value is empty, the
literal `"nan"`, or one of the header-leakage strings is discarded: it
creates no record and modifies no existing record. -/
theorem C5_skip_rows (fname : String) (cols : List String) (i : Nat)
    (cells : List (Option String)) (m : StateMap)
    (h : stateMapping (trimStr (pyStr (cells.getD i none))) = "" ∨
      stateMapping (trimStr (pyStr (cells.getD i none))) = "nan" ∨
      stateMapping (trimStr (pyStr (cells.getD i none))) ∈
        ["Approach", "Aspect", "Impact Area", "Protection Area", "Region"]) :
    procRow fname cols i cells m = m := by
  have hc : stateMapping (trimStr (pyStr (cells.getD i none))) = "" ∨
      stateMapping (trimStr (pyStr (cells.getD i none))) ∈ skipNames := by
    rcases h with h | h | h
    · exact Or.inl h
    · refine Or.inr ?_
      rw [h]
      decide
    · exact Or.inr (List.mem_cons_of_mem _ h)
  have hr : rowName i cells = none := by
    show (if stateMapping (trimStr (pyStr (cells.getD i none))) = "" ∨
        stateMapping (trimStr (pyStr (cells.getD i none))) ∈ skipNames then none
      else some (stateMapping (trimStr (pyStr (cells.getD i none))))) = none
    rw [if_pos hc]
  unfold procRow
  rw [hr]

/-- Witness for C5: a row whose jurisdiction cell reads `"Aspect"` leaves
the empty table empty. -/
theorem C5_skip_rows_witness :
    procRow "f.xlsx" ["State"] 0 [some "Aspect"] [] = [] :=
  C5_skip_rows "f.xlsx" ["State"] 0 [some "Aspect"] [] (by decide)

/-- C6: column classification is first-match evaluation of the ordered §6
rule table (`classifyColumn` agrees with `classifySpec` on every header);
a cell write touches only the classified rule's target field; and a header
containing both "code" and "equity" classifies to `key_statutes` only. -/
theorem C6_first_rule_wins :
    (∀ col, classifyColumn col = classifySpec col) ∧
    (∀ (e : StateEntry) col cell (f g : TopicField), classifyColumn col = some f → g ≠ f →
      getField g (applyCell e col cell) = getField g e) ∧
    classifyColumn "Equity Code" = some .key_statutes ∧
    classifySpec "Equity Code" = some .key_statutes := by
  refine ⟨fun col => rfl, ?_, by decide, by decide⟩
  intro e col cell f g hc hg
  unfold applyCell
  rw [hc]
  dsimp only
  by_cases hv : pyVal cell ≠ "" ∧ pyVal cell ≠ "nan"
  · rw [if_pos hv, getField_setField_ne f g _ e hg]
  · rw [if_neg hv]

/-- Witness for C6: writing through the header `"Equity Code"` (which
classifies to `key_statutes`) leaves `equity_initiatives` untouched. -/
theorem C6_first_rule_wins_witness :
    getField .equity_initiatives (applyCell defaultEntry "Equity Code" (some "value")) =
      getField .equity_initiatives defaultEntry :=
  C6_first_rule_wins.2.1 defaultEntry "Equity Code" (some "value") .key_statutes
    .equity_initiatives (by decide) (by decide)

/-- C8: the coverage-level classification is the pure step function with
exact boundaries at `0.4` and `0.7`: scores at or above `0.7` are Rich,
scores in `[0.4, 0.7)` are Moderate, lower scores are Limited, and the
four boundary probes evaluate accordingly. -/
theorem C8_level_boundaries :
    (∀ s : ℚ, 7/10 ≤ s → get_data_availability_level s = "Rich Data") ∧
    (∀ s : ℚ, 4/10 ≤ s → s < 7/10 → get_data_availability_level s = "Moderate Data") ∧
    (∀ s : ℚ, s < 4/10 → get_data_availability_level s = "Limited Data") ∧
    get_data_availability_level (39/100) = "Limited Data" ∧
    get_data_availability_level (4/10) = "Moderate Data" ∧
    get_data_availability_level (69/100) = "Moderate Data" ∧
    get_data_availability_level (7/10) = "Rich Data" := by
  have hR : ∀ s : ℚ, 7/10 ≤ s → get_data_availability_level s = "Rich Data" := by
    intro s h
    unfold get_data_availability_level
    rw [if_pos h]
  have hM : ∀ s : ℚ, 4/10 ≤ s → s < 7/10 → get_data_availability_level s = "Moderate Data" := by
    intro s h1 h2
    unfold get_data_availability_level
    rw [if_neg (not_le.mpr h2), if_pos h1]
  have hL : ∀ s : ℚ, s < 4/10 → get_data_availability_level s = "Limited Data" := by
    intro s h
    unfold get_data_availability_level
    rw [if_neg (not_le.mpr (h.trans (by norm_num))), if_neg (not_le.mpr h)]
  exact ⟨hR, hM, hL, hL _ (by norm_num), hM _ le_rfl (by norm_num),
    hM _ (by norm_num) (by norm_num), hR _ le_rfl⟩

/-- Witness for C8: a full score classifies as Rich. -/
theorem C8_level_boundaries_witness : get_data_availability_level 1 = "Rich Data" :=
  C8_level_boundaries.1 1 (by norm_num)

/-- C2 (counterexample): a cell holding the one-space string `" "` gives a
record whose `key_statutes` is non-empty, yet whose stored score is `0`,
not `1/11` — the code counts only fields that are non-blank after
stripping, so the claim's "number of non-empty topic fields" reading
fails. -/
theorem C2_coverage_counterexample :
    c2Entry.key_statutes = " " ∧ nonEmptyCount c2Entry = 1 ∧
    c2Entry.data_availability = 0 ∧ (0 : ℚ) ≠ (nonEmptyCount c2Entry : ℚ) / 11 := by
  refine ⟨by decide, by decide, ?_, ?_⟩
  · show ((0 : ℕ) : ℚ) / ((11 : ℕ) : ℚ) = 0
    norm_num
  · have h2 : nonEmptyCount c2Entry = 1 := by decide
    rw [h2]
    norm_num

/-- C2 (amended): after every processed row each record's stored
`data_availability` equals the number of topic fields that are non-blank
after stripping (and not `"nan"`) divided by 11, and the same holds for
every record of the final table — the score is never stale. -/
theorem C2_coverage_recomputed :
    (∀ fname cols i cells (m : StateMap), (∀ p ∈ m, scoreOK p.2) →
      ∀ p ∈ procRow fname cols i cells m, scoreOK p.2) ∧
    (∀ files : List ExcelFile, ∀ e ∈ ingest files, scoreOK e) := by
  constructor
  · exact scoreOK_procRow
  · intro files e he
    have he' : e ∈ (ingestMap files).map Prod.snd := he
    rcases List.mem_map.mp he' with ⟨p, hp, rfl⟩
    exact scoreOK_ingestMap files p hp

/-- Witness for C2 (amended): the record built from the one-space file
carries the score its current fields dictate. -/
theorem C2_coverage_recomputed_witness : scoreOK c2Entry :=
  C2_coverage_recomputed.2 [c2File] c2Entry
    (by
      have h : ingest [c2File] = [c2Entry] := rfl
      rw [h]
      exact List.mem_singleton_self c2Entry)

/-- C7 (counterexample): a record whose `civil_rights` field is the
one-space string `" "` is non-empty and not `"nan"`, yet the Civil Rights
filter excludes it (the code also requires the stripped value to be
non-empty), so the filter does not return exactly the claim's subset. -/
theorem C7_filter_counterexample :
    apply_filters "Civil Rights" "All" [c7Entry] = [] ∧
    c7Entry.civil_rights ≠ "" ∧ c7Entry.civil_rights ≠ "nan" ∧ c7Entry.region = "Midwest" ∧
    List.filter (fun e => e.civil_rights != "" && e.civil_rights != "nan") [c7Entry] =
      [c7Entry] := by
  exact ⟨by decide, by decide, by decide, by decide, by decide⟩

/-- C7 (amended): the Civil Rights filter keeps exactly the records whose
`civil_rights` is non-blank after stripping and not `"nan"`; adding the
Midwest region filter composes by AND (it further restricts to records
with region `"Midwest"`), and membership in the doubly filtered result is
exactly the conjunction of the two conditions. -/
theorem C7_filter_and_composition (t : List StateEntry) :
    apply_filters "Civil Rights" "All" t =
      List.filter (fun e => trimStr e.civil_rights != "" && e.civil_rights != "nan") t ∧
    apply_filters "Civil Rights" "Midwest" t =
      List.filter (fun e => e.region == "Midwest") (apply_filters "Civil Rights" "All" t) ∧
    (∀ e, e ∈ apply_filters "Civil Rights" "Midwest" t ↔
      e ∈ t ∧ trimStr e.civil_rights ≠ "" ∧ e.civil_rights ≠ "nan" ∧
        e.region = "Midwest") := by
  refine ⟨?_, rfl, ?_⟩
  · show List.filter (fun e => has_specific_data_type e "civil_rights") t = _
    refine List.filter_congr ?_
    intro e _
    show isFilled e.civil_rights = _
    exact isFilled_eq e.civil_rights
  · intro e
    show e ∈ List.filter (fun e => e.region == "Midwest")
        (List.filter (fun e => has_specific_data_type e "civil_rights") t) ↔ _
    simp only [List.mem_filter, beq_iff_eq]
    constructor
    · rintro ⟨⟨ht, hcr⟩, hr⟩
      have hb : (trimStr e.civil_rights != "" && e.civil_rights != "nan") = true := by
        rw [← isFilled_eq]
        exact hcr
      simp only [Bool.and_eq_true, bne_iff_ne] at hb
      exact ⟨ht, hb.1, hb.2, hr⟩
    · rintro ⟨ht, h1, h2, hr⟩
      refine ⟨⟨ht, ?_⟩, hr⟩
      show isFilled e.civil_rights = true
      rw [isFilled_eq]
      simp only [Bool.and_eq_true, bne_iff_ne]
      exact ⟨h1, h2⟩

/-- Witness for C7 (amended): the filter characterization evaluated on the
one-record table. -/
theorem C7_filter_and_composition_witness :
    apply_filters "Civil Rights" "All" [c7Entry] =
      List.filter (fun e => trimStr e.civil_rights != "" && e.civil_rights != "nan")
        [c7Entry] :=
  (C7_filter_and_composition [c7Entry]).1

/-- C9 (counterexample): a record named `"Atlantis"` — not one of the fifty
states — still counts toward the code's "US States" metric, because the
code only excludes a fixed six-name territory deny-list rather than
restricting to a fifty-state allow-list. -/
theorem C9_count_counterexample :
    totalStates [c9Entry] = 1 ∧
    fiftyStateNames.contains c9Entry.state = false ∧
    (List.filter (fun e => fiftyStateNames.contains e.state) [c9Entry]).length = 0 := by
  exact ⟨by decide, by decide, by decide⟩

/-- C9 (amended): the "US States" count keeps exactly the records whose
name is not one of the six listed territory names: membership in
`usStatesOnly` is membership in the table plus absence from the deny-list,
and the count is the corresponding `countP`. -/
theorem C9_count_excludes_territories (t : List StateEntry) :
    (∀ e, e ∈ usStatesOnly t ↔ e ∈ t ∧ e.state ∉ territoryNames) ∧
    totalStates t = t.countP fun e => !(territoryNames.contains e.state) := by
  constructor
  · intro e
    unfold usStatesOnly
    simp [List.mem_filter]
  · unfold totalStates usStatesOnly
    rw [List.countP_eq_length_filter]

/-- Witness for C9 (amended): the count characterization evaluated on the
one-record table. -/
theorem C9_count_excludes_territories_witness :
    totalStates [c9Entry] = [c9Entry].countP fun e => !(territoryNames.contains e.state) :=
  (C9_count_excludes_territories [c9Entry]).2

/-- C10: no topic field of any ingested record is ever the literal string
`"nan"`: cells reading `"nan"` are converted or skipped before a field is
written, so the stored value is either empty or genuine content. -/
theorem C10_no_nan_fields (files : List ExcelFile) (e : StateEntry)
    (he : e ∈ ingest files) (f : TopicField) : getField f e ≠ "nan" := by
  have he' : e ∈ (ingestMap files).map Prod.snd := he
  rcases List.mem_map.mp he' with ⟨p, hp, rfl⟩
  exact noNan_ingestMap files p hp f

/-- Witness for C10: ingesting a cell that literally reads `"nan"` stores
nothing — the resulting record's `key_statutes` is not `"nan"`. -/
theorem C10_no_nan_fields_witness : getField .key_statutes c10Entry ≠ "nan" :=
  C10_no_nan_fields [c10File] c10Entry
    (by
      have h : ingest [c10File] = [c10Entry] := rfl
      rw [h]
      exact List.mem_singleton_self c10Entry)
    .key_statutes

end DisasterDashboard
